import Mathlib

/-!
Verification of `logstash_mcp_server.py` (mashhurs/logstash-mcp-server).

This file shallowly embeds the server's pure request-handling and diagnostic
logic.  JSON documents are modelled by `JsonVal` (numbers as exact rationals;
the source compares Python floats whose literals `0.1`, `0.05`, `0.01`, `80`
are exact decimal thresholds, so rational arithmetic is faithful at every
value the theorems touch).  The HTTP layer (`make_request`) is modelled as an
explicit `fetch : String → Except String JsonVal` parameter mapping an
endpoint to a snapshot or a raised-exception message, and every embedded
operation additionally returns the list of endpoints it requested, so that
"no upstream request is made" is a provable statement.  The connectivity
probe `check_connectivity` performs its own HTTP exchange; its result
dictionary is passed in as a `JsonVal` parameter.  Python exception messages
and numeral rendering inside f-strings are abstracted (the theorems never
inspect them); control flow of raising/catching is modelled exactly.
-/

/-- JSON value as produced by `json.loads` / consumed by `json.dumps`:
objects keep insertion order, numbers are exact rationals. -/
inductive JsonVal where
  | null : JsonVal
  | bool : Bool → JsonVal
  | num : ℚ → JsonVal
  | str : String → JsonVal
  | arr : List JsonVal → JsonVal
  | obj : List (String × JsonVal) → JsonVal

/-- Lookup of a key in an ordered field list (Python dict keys are unique,
so first match is the match). -/
def lookupField : List (String × JsonVal) → String → Option JsonVal
  | [], _ => none
  | (k', v) :: rest, k => if k' = k then some v else lookupField rest k

/-- Python `d.get(k)` on a dict-shaped value: `none` when the key is absent
or the value is not an object. -/
def jGet (j : JsonVal) (k : String) : Option JsonVal :=
  match j with
  | .obj fields => lookupField fields k
  | _ => none

/-- Python `d.get(k, default)`. -/
def jGetD (j : JsonVal) (k : String) (d : JsonVal) : JsonVal :=
  (jGet j k).getD d

/-- Python truthiness of a JSON value: `None`, `False`, `0`, `""`, `[]`,
and the empty dict are falsy. -/
def jTruthy : JsonVal → Bool
  | .null => false
  | .bool b => b
  | .num q => decide (q ≠ 0)
  | .str s => !s.isEmpty
  | .arr xs => !xs.isEmpty
  | .obj fs => !fs.isEmpty

/-- Python equality test `v == s` of an arbitrary value against a string
literal: true only when `v` is that very string (`==` across types is
`False`, never an error). -/
def jIsStr (v : JsonVal) (s : String) : Bool :=
  match v with
  | .str t => t = s
  | _ => false

/-- Values usable as numbers in a Python comparison such as `x > 0.1`:
numbers themselves, and booleans (Python `bool` is an `int`).  Any other
value would raise `TypeError` there. -/
def asPyNum : JsonVal → Option ℚ
  | .num q => some q
  | .bool b => some (if b then 1 else 0)
  | _ => none

/-- Python `x == 0`: true exactly for `0`, `0.0` and `False`; comparison
with `==` never raises. -/
def pyEqZero : JsonVal → Bool
  | .num q => q = 0
  | .bool b => !b
  | _ => false

/-- Rendering of a rational inside an f-string; Python's float/int repr is
abstracted to Lean's rational rendering (no theorem inspects the digits). -/
def ratStr (q : ℚ) : String := toString q

/-- Python `str(v)` for a JSON value, as interpolated into f-strings.
Container rendering is abstracted (no theorem inspects it). -/
def pyStr : JsonVal → String
  | .null => "None"
  | .bool b => if b then "True" else "False"
  | .num q => ratStr q
  | .str s => s
  | .arr _ => "<list>"
  | .obj _ => "<dict>"

/-- Rounding of the fraction `n / d` (with `d > 0`) to the nearest integer,
ties to even, as Python's float formatting rounds. -/
def roundHalfEven (n : Int) (d : Nat) : Int :=
  let f := Int.fdiv n d
  let r := n - f * d
  if 2 * r < (d : Int) then f
  else if (d : Int) < 2 * r then f + 1
  else if f % 2 = 0 then f else f + 1

/-- Left-pad a natural's decimal rendering to four digits. -/
def pad4 (n : ℕ) : String :=
  let s := toString n
  String.mk (List.replicate (4 - s.length) '0') ++ s

/-- Python `f"{cur * 100:.4f}%"` on an exact rational `cur`: four decimal
digits of `cur * 100`, i.e. the integer nearest to `cur * 10^6` split into
integral and fractional four-digit parts. -/
def pctFmt (cur : ℚ) : String :=
  let n := roundHalfEven (cur.num * 1000000) cur.den
  let a := n.natAbs
  (if n < 0 then "-" else "") ++ toString (a / 10000) ++ "." ++ pad4 (a % 10000) ++ "%"

/-- Embedding of the `check_backpressure` analysis in `handle_tool_call`
(`logstash_mcp_server.py` lines 341–375), applied to the snapshot returned
for `/_node/stats/flow`.  `Except.error` models a raised exception
(`AttributeError`/`TypeError`), which the caller `handle_tool_call` turns
into its error dictionary; the "Backpressure data not available" dictionary
is a normal return value in the source. -/
def checkBackpressure (flowStats : JsonVal) : Except String JsonVal :=
  match jGetD flowStats "flow" (.obj []) with
  | .obj ff =>
    let bp := (lookupField ff "queue_backpressure").getD (.obj [])
    if jTruthy bp then
      match bp with
      | .obj bf =>
        match asPyNum ((lookupField bf "current").getD (.num 0)) with
        | some cur =>
          let sr : String × String :=
            if cur > mkRat 1 10 then
              ("critical", "High backpressure detected! Consider scaling workers or optimizing filters")
            else if cur > mkRat 1 20 then
              ("warning", "Moderate backpressure detected. Monitor closely and consider optimization")
            else if cur > mkRat 1 100 then
              ("caution", "Slight backpressure detected. Normal under heavy load")
            else
              ("healthy", "Queue backpressure is at normal levels")
          .ok (.obj [
            ("timestamp", jGetD flowStats "timestamp" .null),
            ("status", .str sr.1),
            ("recommendation", .str sr.2),
            ("queue_backpressure", bp),
            ("current_backpressure_percent", .str (pctFmt cur)),
            ("analysis", .obj [
              ("trend_1min", (lookupField bf "last_1_minute").getD (.num 0)),
              ("trend_5min", (lookupField bf "last_5_minutes").getD (.num 0)),
              ("trend_15min", (lookupField bf "last_15_minutes").getD (.num 0)),
              ("baseline", (lookupField bf "lifetime").getD (.num 0))])])
        | none => .error "TypeError: unorderable comparison"
      | _ => .error "AttributeError: object has no attribute get"
    else
      .ok (.obj [("error", .str "Backpressure data not available")])
  | _ => .error "AttributeError: object has no attribute get"

/-- The result dictionary built by `health_check` (lines 84–90): its fixed
keys, with `issues` holding the f-string messages appended and
`recommendations` holding the raw appended values. -/
structure HealthStatus where
  overall_status : String
  timestamp : JsonVal
  logstash_version : JsonVal
  issues : List String
  recommendations : List JsonVal

/-- Outcome of `health_check`: a normally returned status dictionary, or the
fallback dictionary `{"overall_status": "unhealthy", "error": msg,
"timestamp": None}` produced by the enclosing `except` (lines 135–140). -/
inductive HealthResult where
  | ok : HealthStatus → HealthResult
  | failed : String → HealthResult

/-- Issue line appended by the heap-usage check (line 113). -/
def heapIssueLine (h : ℚ) : String :=
  "High JVM heap usage: " ++ ratStr h ++ "%"

/-- Issue line appended by the pipeline output-starvation check (line 127). -/
def pipeIssueLine (pid : String) : String :=
  "Pipeline " ++ pid ++ " has filtered events but no output"

/-- Recommendation appended alongside `pipeIssueLine` (line 128). -/
def pipeRecLine (pid : String) : String :=
  "Check pipeline " ++ pid ++ " configuration for output issues"

/-- Embedding of the JVM-heap portion of `health_check` (lines 108–116)
applied to the `/_node/stats` snapshot.  Returns the
(status, issues, recommendations) contribution, or `Except.error` when the
source would raise (non-dict `jvm["mem"]`, non-numeric heap percent), which
the enclosing `try` of `health_check` turns into the fallback result. -/
def heapPhase (nodeStats : JsonVal) : Except String (String × List String × List JsonVal) :=
  match jGetD nodeStats "jvm" (.obj []) with
  | .obj jf =>
    match lookupField jf "mem" with
    | none => .ok ("healthy", [], [])
    | some (.obj mf) =>
      match asPyNum ((lookupField mf "heap_used_percent").getD (.num 0)) with
      | none => .error "TypeError: unorderable comparison"
      | some h =>
        if h > 80 then
          .ok ("warning", [heapIssueLine h],
            [.str "Consider increasing JVM heap size or optimizing memory usage"])
        else
          .ok ("healthy", [], [])
    | some _ => .error "AttributeError: object has no attribute get"
  | _ => .ok ("healthy", [], [])

/-- One step of the pipeline output-starvation loop (lines 121–129),
accumulating (status, issues, recommendations).  An exception raised inside
the loop (non-dict `events`, non-numeric `filtered`) is caught by the
enclosing bare `except` (line 130), so its effect is to stop the loop while
keeping everything accumulated so far. -/
def pipelineLoop : List (String × JsonVal) → String × List String × List JsonVal →
    String × List String × List JsonVal
  | [], acc => acc
  | (pid, stats) :: rest, (st, iss, recs) =>
    match stats with
    | .obj sf =>
      match lookupField sf "events" with
      | some (.obj ef) =>
        match asPyNum ((lookupField ef "filtered").getD (.num 0)) with
        | none => (st, iss, recs)
        | some f =>
          if f > 0 then
            if pyEqZero ((lookupField ef "out").getD (.num 0)) then
              pipelineLoop rest ("warning", iss ++ [pipeIssueLine pid],
                recs ++ [.str (pipeRecLine pid)])
            else pipelineLoop rest (st, iss, recs)
          else pipelineLoop rest (st, iss, recs)
      | some _ => (st, iss, recs)
      | none => pipelineLoop rest (st, iss, recs)
    | _ => pipelineLoop rest (st, iss, recs)

/-- The `try`-guarded pipeline block of `health_check` (lines 117–131): a
failed fetch, a non-dict `pipelines` member, or an exception inside the loop
leaves the accumulated status untouched (the bare `except: pass`). -/
def pipelineStage (fetch : String → Except String JsonVal)
    (acc : String × List String × List JsonVal) : String × List String × List JsonVal :=
  match fetch "/_node/stats/pipelines?human=true" with
  | .error _ => acc
  | .ok pstats =>
    match jGetD pstats "pipelines" (.obj []) with
    | .obj entries => pipelineLoop entries acc
    | _ => acc

/-- Embedding of `health_check` (lines 81–140).  `conn` is the dictionary
returned by the external connectivity probe `check_connectivity`; `fetch`
models `make_request`, mapping an endpoint to its snapshot or to a raised
exception's message.  Alongside the result, the list of endpoints passed to
`make_request` is returned, in request order. -/
def healthCheck (conn : JsonVal) (fetch : String → Except String JsonVal) :
    HealthResult × List String :=
  match jGet conn "status" with
  | none => (.failed "KeyError: status", [])
  | some connStatus =>
    if jIsStr connStatus "connected" then
      match fetch "/_node" with
      | .error e => (.failed e, ["/_node"])
      | .ok nodeInfo =>
        match fetch "/_node/stats?human=true" with
        | .error e => (.failed e, ["/_node", "/_node/stats?human=true"])
        | .ok nodeStats =>
          match heapPhase nodeStats with
          | .error e => (.failed e, ["/_node", "/_node/stats?human=true"])
          | .ok acc1 =>
            let acc2 := pipelineStage fetch acc1
            (.ok { overall_status := acc2.1,
                   timestamp := jGetD nodeInfo "timestamp" .null,
                   logstash_version := jGetD nodeInfo "version" (.str "unknown"),
                   issues := acc2.2.1,
                   recommendations := acc2.2.2 },
             ["/_node", "/_node/stats?human=true", "/_node/stats/pipelines?human=true"])
    else
      match jGet conn "error" with
      | none => (.failed "KeyError: error", [])
      | some errV =>
        (.ok { overall_status := "unhealthy",
               timestamp := .null,
               logstash_version := .null,
               issues := ["Connectivity issue: " ++ pyStr errV],
               recommendations := [jGetD conn "suggestion" (.str "Check Logstash connectivity")] },
         [])

/-- Severity order of the status tiers appearing in the source
(`unhealthy` is the critical-equivalent tier of the composite check). -/
def tierRank : String → ℕ
  | "healthy" => 0
  | "caution" => 1
  | "warning" => 2
  | "critical" => 3
  | "unhealthy" => 3
  | _ => 0

mutual

/-- Serialization of a JSON value, modelling `json.dumps` (the source passes
`indent=2`; whitespace and Python's numeral rendering are abstracted, no
theorem inspects the characters). -/
def dumps : JsonVal → String
  | .null => "null"
  | .bool b => if b then "true" else "false"
  | .num q => ratStr q
  | .str s => "\"" ++ s ++ "\""
  | .arr xs => "[" ++ dumpsItems xs ++ "]"
  | .obj fs => "\x7b" ++ dumpsFields fs ++ "\x7d"

/-- Serialization of the items of a JSON array. -/
def dumpsItems : List JsonVal → String
  | [] => ""
  | [x] => dumps x
  | x :: xs => dumps x ++ ", " ++ dumpsItems xs

/-- Serialization of the fields of a JSON object. -/
def dumpsFields : List (String × JsonVal) → String
  | [] => ""
  | [(k, v)] => "\"" ++ k ++ "\": " ++ dumps v
  | (k, v) :: fs => "\"" ++ k ++ "\": " ++ dumps v ++ ", " ++ dumpsFields fs

end

/-- The static tool registry returned by `get_tools` (lines 142–304),
transcribed field for field. -/
def getTools : JsonVal :=
  .arr [
    .obj [
      ("name", .str "logstash_check_connectivity"),
      ("description", .str "Check connectivity to Logstash instance with detailed diagnostics"),
      ("inputSchema", .obj [
        ("type", .str "object"),
        ("properties", .obj []),
        ("required", .arr [])])],
    .obj [
      ("name", .str "logstash_node_info"),
      ("description", .str "Get Logstash node information including version and settings"),
      ("inputSchema", .obj [
        ("type", .str "object"),
        ("properties", .obj []),
        ("required", .arr [])])],
    .obj [
      ("name", .str "logstash_node_stats"),
      ("description", .str "Get comprehensive node statistics including JVM and process metrics"),
      ("inputSchema", .obj [
        ("type", .str "object"),
        ("properties", .obj [
          ("human", .obj [
            ("type", .str "boolean"),
            ("description", .str "Format output for human readability"),
            ("default", .bool true)])]),
        ("required", .arr [])])],
    .obj [
      ("name", .str "logstash_pipelines_stats"),
      ("description", .str "Get statistics for all Logstash pipelines"),
      ("inputSchema", .obj [
        ("type", .str "object"),
        ("properties", .obj [
          ("human", .obj [
            ("type", .str "boolean"),
            ("description", .str "Format output for human readability"),
            ("default", .bool true)])]),
        ("required", .arr [])])],
    .obj [
      ("name", .str "logstash_pipeline_stats"),
      ("description", .str "Get statistics for a specific pipeline"),
      ("inputSchema", .obj [
        ("type", .str "object"),
        ("properties", .obj [
          ("id", .obj [
            ("type", .str "string"),
            ("description", .str "Pipeline ID to get statistics for")]),
          ("human", .obj [
            ("type", .str "boolean"),
            ("description", .str "Format output for human readability"),
            ("default", .bool true)])]),
        ("required", .arr [.str "id"])])],
    .obj [
      ("name", .str "logstash_hot_threads"),
      ("description", .str "Get hot threads information for performance debugging"),
      ("inputSchema", .obj [
        ("type", .str "object"),
        ("properties", .obj [
          ("threads", .obj [
            ("type", .str "integer"),
            ("description", .str "Number of hot threads to return"),
            ("default", .num 3)]),
          ("human", .obj [
            ("type", .str "boolean"),
            ("description", .str "Format output for human readability"),
            ("default", .bool true)])]),
        ("required", .arr [])])],
    .obj [
      ("name", .str "logstash_plugins"),
      ("description", .str "List all installed Logstash plugins"),
      ("inputSchema", .obj [
        ("type", .str "object"),
        ("properties", .obj []),
        ("required", .arr [])])],
    .obj [
      ("name", .str "check_backpressure"),
      ("description", .str "Check queue backpressure metrics to monitor pipeline performance and congestion"),
      ("inputSchema", .obj [
        ("type", .str "object"),
        ("properties", .obj [
          ("human", .obj [
            ("type", .str "boolean"),
            ("description", .str "Format output for human readability"),
            ("default", .bool true)])]),
        ("required", .arr [])])],
    .obj [
      ("name", .str "logstash_health_check"),
      ("description", .str "Perform comprehensive health check with analysis and recommendations"),
      ("inputSchema", .obj [
        ("type", .str "object"),
        ("properties", .obj []),
        ("required", .arr [])])],
    .obj [
      ("name", .str "logstash_jvm_stats"),
      ("description", .str "Get detailed JVM statistics for memory analysis"),
      ("inputSchema", .obj [
        ("type", .str "object"),
        ("properties", .obj [
          ("human", .obj [
            ("type", .str "boolean"),
            ("description", .str "Format output for human readability"),
            ("default", .bool true)])]),
        ("required", .arr [])])],
    .obj [
      ("name", .str "logstash_health_report"),
      ("description", .str "Get detailed health report from Logstash"),
      ("inputSchema", .obj [
        ("type", .str "object"),
        ("properties", .obj []),
        ("required", .arr [])])],
    .obj [
      ("name", .str "flow_metrics"),
      ("description", .str "Get detailed flow metrics including throughput, backpressure, and worker concurrency. Reference: https://www.elastic.co/docs/api/doc/logstash/operation/operation-nodestatsflow"),
      ("inputSchema", .obj [
        ("type", .str "object"),
        ("properties", .obj [
          ("human", .obj [
            ("type", .str "boolean"),
            ("description", .str "Format output for human readability"),
            ("default", .bool true)])]),
        ("required", .arr [])])]]

/-- Type string declared in a registered tool's `inputSchema.properties`
for a given field name, read from `getTools`. -/
def findToolType (tools : List JsonVal) (toolName field : String) : Option String :=
  match tools with
  | [] => none
  | t :: rest =>
    if jIsStr (jGetD t "name" .null) toolName then
      match jGet (jGetD (jGetD t "inputSchema" (.obj [])) "properties" (.obj [])) field with
      | some p =>
        match jGet p "type" with
        | some (.str ty) => some ty
        | _ => none
      | none => none
    else findToolType rest toolName field

/-- Declared type of a field of a registered tool, or `none` when the tool
or the field is not declared. -/
def declaredType (toolName field : String) : Option String :=
  match getTools with
  | .arr tools => findToolType tools toolName field
  | _ => none

/-- Whether a JSON value matches a JSON-schema primitive type string. -/
def typeMatches (ty : String) (v : JsonVal) : Bool :=
  match ty with
  | "boolean" => match v with | .bool _ => true | _ => false
  | "integer" => match v with | .num q => q.den = 1 | _ => false
  | "string" => match v with | .str _ => true | _ => false
  | _ => true

/-- Error dictionary built by the `except` clause of `handle_tool_call`
(lines 407–412): message, the tool name value, and the arguments supplied. -/
def toolErrorDict (msg : String) (name args : JsonVal) : JsonVal :=
  .obj [("error", .str msg), ("tool", name), ("arguments", args)]

/-- Direct `make_request` tool action: the snapshot on success, and the
caught exception's error dictionary on failure; the endpoint is recorded as
requested either way. -/
def fetchTool (fetch : String → Except String JsonVal) (ep : String)
    (name args : JsonVal) : JsonVal × List String :=
  match fetch ep with
  | .ok j => (j, [ep])
  | .error e => (toolErrorDict e name args, [ep])

/-- The `"?human=true"` (or `"&human=true"`) suffix chosen from
`arguments.get("human", True)`'s truthiness. -/
def humanSuffix (args : JsonVal) (sep : String) : String :=
  if jTruthy (jGetD args "human" (.bool true)) then sep ++ "human=true" else ""

/-- The dictionary `health_check`'s result serializes to, for use as a tool
result (`HealthResult` rendered back to its source dictionary shape). -/
def healthResultJson : HealthResult → JsonVal
  | .ok st => .obj [
      ("overall_status", .str st.overall_status),
      ("timestamp", st.timestamp),
      ("logstash_version", st.logstash_version),
      ("issues", .arr (st.issues.map .str)),
      ("recommendations", .arr st.recommendations)]
  | .failed e => .obj [
      ("overall_status", .str "unhealthy"),
      ("error", .str e),
      ("timestamp", .null)]

/-- Python `flow_metrics.get(k, {}).get("current", 0)` (lines 396–399):
raises `AttributeError` when the sub-object is present but not a dict. -/
def flowCurrent (ff : List (String × JsonVal)) (k : String) : Except String JsonVal :=
  match (lookupField ff k).getD (.obj []) with
  | .obj sub => .ok ((lookupField sub "current").getD (.num 0))
  | _ => .error "AttributeError: object has no attribute get"

/-- Embedding of the `flow_metrics` summarization (lines 389–403) applied to
the full `/_node/stats` snapshot. -/
def flowMetricsResult (full : JsonVal) : Except String JsonVal :=
  let fm := jGetD full "flow" (.obj [])
  if jTruthy fm then
    match fm with
    | .obj ff => do
      let wc ← flowCurrent ff "worker_concurrency"
      let qb ← flowCurrent ff "queue_backpressure"
      let it ← flowCurrent ff "input_throughput"
      let ot ← flowCurrent ff "output_throughput"
      .ok (.obj [
        ("timestamp", jGetD full "timestamp" .null),
        ("flow_metrics", fm),
        ("summary", .obj [
          ("current_worker_concurrency", wc),
          ("current_queue_backpressure", qb),
          ("input_throughput", it),
          ("output_throughput", ot)])])
    | _ => .error "AttributeError: object has no attribute get"
  else
    .ok (.obj [("error", .str "Flow metrics not available")])

/-- Dispatch of `handle_tool_call` (lines 306–412) for a string tool name,
given the connectivity-probe result `conn` and the `make_request` model
`fetch`.  The returned list records the endpoints passed to `make_request`,
in order; every raised exception is caught and shaped into `toolErrorDict`
by the enclosing handler, exactly as the source's `except` does. -/
def dispatchTool (conn : JsonVal) (fetch : String → Except String JsonVal)
    (s : String) (name args : JsonVal) : JsonVal × List String :=
  if s = "logstash_check_connectivity" then (conn, [])
  else if s = "logstash_node_info" then fetchTool fetch "/_node" name args
  else if s = "logstash_node_stats" then
    fetchTool fetch ("/_node/stats" ++ humanSuffix args "?") name args
  else if s = "logstash_pipelines_stats" then
    fetchTool fetch ("/_node/stats/pipelines" ++ humanSuffix args "?") name args
  else if s = "logstash_pipeline_stats" then
    let pid := jGetD args "id" .null
    if jTruthy pid then
      fetchTool fetch ("/_node/stats/pipelines/" ++ pyStr pid ++ humanSuffix args "?") name args
    else (toolErrorDict "Pipeline ID is required" name args, [])
  else if s = "logstash_hot_threads" then
    let threads := jGetD args "threads" (.num 3)
    fetchTool fetch ("/_node/hot_threads?threads=" ++ pyStr threads ++ humanSuffix args "&")
      name args
  else if s = "logstash_plugins" then fetchTool fetch "/_node/plugins" name args
  else if s = "check_backpressure" then
    let ep := "/_node/stats/flow" ++ humanSuffix args "?"
    match fetch ep with
    | .error e => (toolErrorDict e name args, [ep])
    | .ok flowStats =>
      match checkBackpressure flowStats with
      | .ok r => (r, [ep])
      | .error e => (toolErrorDict e name args, [ep])
  else if s = "logstash_health_check" then
    match healthCheck conn fetch with
    | (res, reqs) => (healthResultJson res, reqs)
  else if s = "logstash_jvm_stats" then
    fetchTool fetch ("/_node/stats/jvm" ++ humanSuffix args "?") name args
  else if s = "logstash_health_report" then fetchTool fetch "/_health_report" name args
  else if s = "flow_metrics" then
    let ep := "/_node/stats" ++ humanSuffix args "?"
    match fetch ep with
    | .error e => (toolErrorDict e name args, [ep])
    | .ok full =>
      match flowMetricsResult full with
      | .ok r => (r, [ep])
      | .error e => (toolErrorDict e name args, [ep])
  else (toolErrorDict ("Unknown tool: " ++ pyStr name) name args, [])

/-- Embedding of `handle_tool_call` (lines 306–412).  A non-string `name`
value compares unequal to every branch's literal, reaching the
`Unknown tool` fallthrough exactly as in Python. -/
def handleToolCall (conn : JsonVal) (fetch : String → Except String JsonVal)
    (name args : JsonVal) : JsonVal × List String :=
  match name with
  | .str s => dispatchTool conn fetch s name args
  | _ => (toolErrorDict ("Unknown tool: " ++ pyStr name) name args, [])

/-- Response envelope of `handle_request`: `{"jsonrpc": "2.0", "id": ...}`
together with either a `result` or an `error: {code, message}` member. -/
inductive RpcResponse where
  | success : JsonVal → JsonVal → RpcResponse
  | failure : JsonVal → Int → String → RpcResponse

/-- The `tools/call` success payload (lines 456–465): the tool result
serialized into a single text content block. -/
def wrapToolResult (r : JsonVal) : JsonVal :=
  .obj [("content", .arr [.obj [("type", .str "text"), ("text", .str (dumps r))]])]

/-- Embedding of `handle_request` (lines 414–478): takes the session flag
`is_initialized` and the request document, returns the new flag, the
response envelope, and the endpoints requested while handling.  All raised
exceptions are caught by the trailing `except` and shaped into an error
envelope with code `-32602`. -/
def handleRequest (conn : JsonVal) (fetch : String → Except String JsonVal)
    (isInit : Bool) (req : JsonVal) : Bool × RpcResponse × List String :=
  let method := jGetD req "method" .null
  let rid := jGetD req "id" .null
  let params := jGetD req "params" (.obj [])
  if jIsStr method "initialize" then
    (true, .success rid (.obj [
      ("capabilities", .obj []),
      ("serverInfo", .obj [("name", .str "logstash-mcp"), ("version", .str "1.0.0")])]), [])
  else if jIsStr method "tools/list" then
    if isInit then (isInit, .success rid (.obj [("tools", getTools)]), [])
    else (isInit, .failure rid (-32602) "Server not initialized", [])
  else if jIsStr method "tools/call" then
    if isInit then
      let name := jGetD params "name" .null
      let args := jGetD params "arguments" (.obj [])
      match handleToolCall conn fetch name args with
      | (res, reqs) => (isInit, .success rid (wrapToolResult res), reqs)
    else (isInit, .failure rid (-32602) "Server not initialized", [])
  else
    (isInit, .failure rid (-32602) ("Unknown method: " ++ pyStr method), [])

/-- Per-line handling of the stdin loop in `main` (lines 546–559), given the
outcome of `json.loads` on the line: `none` models `JSONDecodeError`, which
is answered with the reserved parse-error envelope (code `-32700`,
`id: None`); a parsed document goes to `handle_request`. -/
def processParsed (conn : JsonVal) (fetch : String → Except String JsonVal)
    (isInit : Bool) : Option JsonVal → Bool × RpcResponse × List String
  | none => (isInit, .failure .null (-32700) "Parse error", [])
  | some req => handleRequest conn fetch isInit req

/-- A pipeline-stats entry that triggers the output-starvation issue in the
loop of `health_check` (line 126): `events` is a dict, its `filtered` count
(default 0) is a number greater than 0, and its `out` count (default 0)
compares equal to 0. -/
def starved (stats : JsonVal) : Bool :=
  match stats with
  | .obj sf =>
    match lookupField sf "events" with
    | some (.obj ef) =>
      match asPyNum ((lookupField ef "filtered").getD (.num 0)) with
      | some f => decide (f > 0) && pyEqZero ((lookupField ef "out").getD (.num 0))
      | none => false
    | _ => false
  | _ => false

/-- A pipeline-stats entry that the loop of `health_check` processes without
raising: its `events` member, when it is reached, is a dict whose `filtered`
value (default 0) is comparable with 0. -/
def entrySafe (stats : JsonVal) : Bool :=
  match stats with
  | .obj sf =>
    match lookupField sf "events" with
    | some (.obj ef) => (asPyNum ((lookupField ef "filtered").getD (.num 0))).isSome
    | some _ => false
    | none => true
  | _ => true

/-- Minimal flow-stats snapshot carrying a backpressure ratio, used to
exercise `check_backpressure` at the boundary values. -/
def bpSnap (r : ℚ) : JsonVal :=
  .obj [("flow", .obj [("queue_backpressure", .obj [("current", .num r)])])]

/-- Backpressure status assigned by `check_backpressure` to the snapshot
`bpSnap r`, for stating the boundary cases. -/
def bpStatusAt (r : ℚ) : Option JsonVal :=
  jGet ((checkBackpressure (bpSnap r)).toOption.getD .null) "status"

/-- Status field of a successful `check_backpressure` result. -/
def bpStatus (flowStats : JsonVal) : Option JsonVal :=
  jGet ((checkBackpressure flowStats).toOption.getD .null) "status"

lemma jTruthy_obj_of_lookupField {fs : List (String × JsonVal)} {k : String} {v : JsonVal}
    (h : lookupField fs k = some v) : jTruthy (.obj fs) = true := by
  cases fs with
  | nil => simp [lookupField] at h
  | cons a l => simp [jTruthy]


/-- C1. For every backpressure ratio `r` read from the flow snapshot's
`queue_backpressure` `current` field, `check_backpressure` classifies by
exclusive lower bounds checked highest first — `r > 0.10` critical, else
`r > 0.05` warning, else `r > 0.01` caution, else healthy — and in
particular `r = 0.10` yields warning, `r = 0.05` caution, `r = 0.01`
healthy, and `r = 0.15` critical. -/
theorem backpressure_ratio_classification
    (flowStats : JsonVal) (ff bf : List (String × JsonVal)) (r : ℚ)
    (hflow : jGetD flowStats "flow" (.obj []) = .obj ff)
    (hbp : lookupField ff "queue_backpressure" = some (.obj bf))
    (hcur : lookupField bf "current" = some (.num r)) :
    ((∃ res, checkBackpressure flowStats = .ok res) ∧
      (r > mkRat 1 10 → bpStatus flowStats = some (.str "critical")) ∧
      (r ≤ mkRat 1 10 → r > mkRat 1 20 → bpStatus flowStats = some (.str "warning")) ∧
      (r ≤ mkRat 1 20 → r > mkRat 1 100 → bpStatus flowStats = some (.str "caution")) ∧
      (r ≤ mkRat 1 100 → bpStatus flowStats = some (.str "healthy"))) ∧
    bpStatusAt (mkRat 1 10) = some (.str "warning") ∧
    bpStatusAt (mkRat 1 20) = some (.str "caution") ∧
    bpStatusAt (mkRat 1 100) = some (.str "healthy") ∧
    bpStatusAt (mkRat 3 20) = some (.str "critical") := by
  have hT : jTruthy (.obj bf) = true := jTruthy_obj_of_lookupField hcur
  refine ⟨⟨?_, ?_, ?_, ?_, ?_⟩, by rfl, by rfl, by rfl, by rfl⟩
  all_goals simp only [bpStatus, checkBackpressure, hflow, hbp, Option.getD_some, hT, if_true,
    hcur, asPyNum, Except.toOption]
  · exact ⟨_, rfl⟩
  · intro h1
    rw [if_pos h1]
    simp [jGet, lookupField]
  · intro h1 h2
    rw [if_neg (not_lt.mpr h1), if_pos h2]
    simp [jGet, lookupField]
  · intro h1 h2
    rw [if_neg (not_lt.mpr (h1.trans (by decide))), if_neg (not_lt.mpr h1), if_pos h2]
    simp [jGet, lookupField]
  · intro h1
    rw [if_neg (not_lt.mpr (h1.trans (by decide))), if_neg (not_lt.mpr (h1.trans (by decide))),
      if_neg (not_lt.mpr h1)]
    simp [jGet, lookupField]

/-- Witness for C1 at the concrete ratio `r = 0.15` in a concrete flow
snapshot: the classification succeeds and reports `critical`. -/
theorem backpressure_ratio_classification_witness :
    (∃ res, checkBackpressure (bpSnap (mkRat 3 20)) = .ok res) ∧
      bpStatus (bpSnap (mkRat 3 20)) = some (.str "critical") :=
  let h := backpressure_ratio_classification (bpSnap (mkRat 3 20))
    [("queue_backpressure", .obj [("current", .num (mkRat 3 20))])]
    [("current", .num (mkRat 3 20))] (mkRat 3 20) (by rfl) (by rfl) (by rfl)
  ⟨h.1.1, h.1.2.1 (by decide)⟩

/-- C9. For every flow snapshot with no backpressure field, the backpressure
classification returns the typed `Backpressure data not available` failure
dictionary rather than a default classification. -/
theorem backpressure_metric_unavailable
    (flowStats : JsonVal) (ff : List (String × JsonVal))
    (hflow : jGetD flowStats "flow" (.obj []) = .obj ff)
    (habs : lookupField ff "queue_backpressure" = none) :
    checkBackpressure flowStats
      = .ok (.obj [("error", .str "Backpressure data not available")]) := by
  simp only [checkBackpressure, hflow, habs, Option.getD_none, jTruthy, List.isEmpty_nil,
    Bool.not_true, if_false, Bool.false_eq_true]

/-- Witness for C9: a flow snapshot whose `flow` block lacks
`queue_backpressure` is answered with the unavailability dictionary. -/
theorem backpressure_metric_unavailable_witness :
    checkBackpressure (.obj [("flow", .obj [("input_throughput", .obj [("current", .num 7)])])])
      = .ok (.obj [("error", .str "Backpressure data not available")]) :=
  backpressure_metric_unavailable _ [("input_throughput", .obj [("current", .num 7)])]
    (by rfl) (by rfl)

/-- C10. For every flow snapshot whose `queue_backpressure` object is
present and non-empty but has no `current` field, `check_backpressure`
treats the ratio as 0 and succeeds with status `healthy` and the percentage
string `0.0000%`, instead of reporting the metric unavailable. -/
theorem backpressure_default_current
    (flowStats : JsonVal) (ff bf : List (String × JsonVal))
    (hflow : jGetD flowStats "flow" (.obj []) = .obj ff)
    (hbp : lookupField ff "queue_backpressure" = some (.obj bf))
    (hne : bf ≠ [])
    (hcur : lookupField bf "current" = none) :
    (∃ res, checkBackpressure flowStats = .ok res) ∧
      bpStatus flowStats = some (.str "healthy") ∧
      jGet ((checkBackpressure flowStats).toOption.getD .null) "current_backpressure_percent"
        = some (.str "0.0000%") := by
  have hT : jTruthy (.obj bf) = true := by
    cases bf with
    | nil => exact absurd rfl hne
    | cons a l => simp [jTruthy]
  refine ⟨?_, ?_, ?_⟩
  all_goals simp only [bpStatus, checkBackpressure, hflow, hbp, Option.getD_some, hT, if_true,
    hcur, Option.getD_none, asPyNum, Except.toOption]
  · exact ⟨_, rfl⟩
  · rw [if_neg (by decide), if_neg (by decide), if_neg (by decide)]
    simp [jGet, lookupField]
  · rw [if_neg (by decide), if_neg (by decide), if_neg (by decide)]
    simp only [jGet, lookupField]
    norm_num
    rfl

/-- Witness for C10: a non-empty backpressure object carrying only trend
fields is classified healthy at `0.0000%`. -/
theorem backpressure_default_current_witness :
    (∃ res, checkBackpressure (.obj [("flow", .obj [("queue_backpressure",
        .obj [("last_1_minute", .num 2)])])]) = .ok res) ∧
      bpStatus (.obj [("flow", .obj [("queue_backpressure",
        .obj [("last_1_minute", .num 2)])])]) = some (.str "healthy") :=
  let h := backpressure_default_current _ [("queue_backpressure", .obj [("last_1_minute", .num 2)])]
    [("last_1_minute", .num 2)] (by rfl) (by rfl) (by simp) (by rfl)
  ⟨h.1, h.2.1⟩

lemma pipeIssueLine_inj {a b : String} (h : pipeIssueLine a = pipeIssueLine b) : a = b := by
  have hd := congrArg String.data h
  simp only [pipeIssueLine, String.data_append] at hd
  exact String.ext (List.append_cancel_left (List.append_cancel_right hd))

lemma heapIssueLine_ne_pipeIssueLine (q : ℚ) (pid : String) :
    heapIssueLine q ≠ pipeIssueLine pid := by
  intro h
  have hd := congrArg String.data h
  simp only [heapIssueLine, pipeIssueLine, String.data_append] at hd
  simp at hd

lemma pipelineLoop_cons (pid : String) (stats : JsonVal)
    (rest : List (String × JsonVal)) (acc : String × List String × List JsonVal) :
    pipelineLoop ((pid, stats) :: rest) acc =
      if entrySafe stats then
        if starved stats then
          pipelineLoop rest
            ("warning", acc.2.1 ++ [pipeIssueLine pid], acc.2.2 ++ [.str (pipeRecLine pid)])
        else pipelineLoop rest acc
      else acc := by
  obtain ⟨st, iss, recs⟩ := acc
  cases stats with
  | obj sf =>
    cases hev : lookupField sf "events" with
    | none => simp [pipelineLoop, entrySafe, starved, hev]
    | some ev =>
      cases ev with
      | obj ef =>
        cases hf : asPyNum ((lookupField ef "filtered").getD (.num 0)) with
        | none => simp [pipelineLoop, entrySafe, starved, hev, hf]
        | some f =>
          by_cases hf0 : f > 0
          · by_cases hout : pyEqZero ((lookupField ef "out").getD (.num 0)) = true
            · simp [pipelineLoop, entrySafe, starved, hev, hf, hf0, hout]
            · simp [pipelineLoop, entrySafe, starved, hev, hf, hf0, hout]
          · simp [pipelineLoop, entrySafe, starved, hev, hf, hf0]
      | null => simp [pipelineLoop, entrySafe, starved, hev]
      | bool b => simp [pipelineLoop, entrySafe, starved, hev]
      | num q => simp [pipelineLoop, entrySafe, starved, hev]
      | str s => simp [pipelineLoop, entrySafe, starved, hev]
      | arr xs => simp [pipelineLoop, entrySafe, starved, hev]
  | null => simp [pipelineLoop, entrySafe, starved]
  | bool b => simp [pipelineLoop, entrySafe, starved]
  | num q => simp [pipelineLoop, entrySafe, starved]
  | str s => simp [pipelineLoop, entrySafe, starved]
  | arr xs => simp [pipelineLoop, entrySafe, starved]

lemma pipelineLoop_fst (entries : List (String × JsonVal)) :
    ∀ acc : String × List String × List JsonVal,
      (pipelineLoop entries acc).1 = acc.1 ∨ (pipelineLoop entries acc).1 = "warning" := by
  induction entries with
  | nil => intro acc; left; rfl
  | cons e rest ih =>
    rintro ⟨st, iss, recs⟩
    obtain ⟨pid, stats⟩ := e
    rw [pipelineLoop_cons]
    by_cases hs : entrySafe stats = true
    · rw [if_pos hs]
      by_cases hst : starved stats = true
      · rw [if_pos hst]
        rcases ih ("warning", iss ++ [pipeIssueLine pid], recs ++ [.str (pipeRecLine pid)]) with
          h | h
        · right; exact h
        · right; exact h
      · rw [if_neg hst]; exact ih (st, iss, recs)
    · rw [if_neg hs]; left; rfl

lemma pipelineLoop_issues (entries : List (String × JsonVal)) :
    ∀ acc : String × List String × List JsonVal, ∃ extra,
      (pipelineLoop entries acc).2.1 = acc.2.1 ++ extra ∧
      ∀ s ∈ extra, ∃ pid, s = pipeIssueLine pid := by
  induction entries with
  | nil => intro acc; exact ⟨[], by simp [pipelineLoop], by simp⟩
  | cons e rest ih =>
    rintro ⟨st, iss, recs⟩
    obtain ⟨pid, stats⟩ := e
    rw [pipelineLoop_cons]
    by_cases hs : entrySafe stats = true
    · rw [if_pos hs]
      by_cases hst : starved stats = true
      · rw [if_pos hst]
        obtain ⟨extra, he, hall⟩ :=
          ih ("warning", iss ++ [pipeIssueLine pid], recs ++ [.str (pipeRecLine pid)])
        refine ⟨pipeIssueLine pid :: extra, ?_, ?_⟩
        · simpa [List.append_assoc] using he
        · intro s hsm
          rcases hsm with _ | hsm
          · exact ⟨pid, rfl⟩
          · exact hall s (by assumption)
      · rw [if_neg hst]; exact ih (st, iss, recs)
    · rw [if_neg hs]; exact ⟨[], by simp, by simp⟩

lemma pipelineLoop_eq_of_safe (entries : List (String × JsonVal)) :
    ∀ st iss recs, (∀ e ∈ entries, entrySafe e.2 = true) →
      pipelineLoop entries (st, iss, recs) =
        ((if entries.any (fun e => starved e.2) then "warning" else st),
         iss ++ (entries.filter (fun e => starved e.2)).map (fun e => pipeIssueLine e.1),
         recs ++ (entries.filter (fun e => starved e.2)).map
           (fun e => JsonVal.str (pipeRecLine e.1))) := by
  induction entries with
  | nil => intro st iss recs _; simp [pipelineLoop]
  | cons e rest ih =>
    intro st iss recs hsafe
    obtain ⟨pid, stats⟩ := e
    have hs : entrySafe stats = true := hsafe (pid, stats) (List.mem_cons_self _ _)
    have hrest : ∀ e ∈ rest, entrySafe e.2 = true :=
      fun e he => hsafe e (List.mem_cons_of_mem _ he)
    rw [pipelineLoop_cons, if_pos hs]
    by_cases hst : starved stats = true
    · rw [if_pos hst, ih _ _ _ hrest]
      simp [hst, List.append_assoc]
    · have hst' : starved stats = false := by simpa using hst
      rw [if_neg hst, ih _ _ _ hrest]
      simp only [List.any_cons, List.filter_cons, hst', Bool.false_or, if_false]
      simp

lemma heapPhase_shape (ns : JsonVal) (acc : String × List String × List JsonVal)
    (h : heapPhase ns = .ok acc) :
    (acc.1 = "healthy" ∧ acc.2.1 = []) ∨
    (acc.1 = "warning" ∧ ∃ q : ℚ, 80 < q ∧ acc.2.1 = [heapIssueLine q]) := by
  unfold heapPhase at h
  split at h
  · split at h
    · injection h with h'; subst h'; left; exact ⟨rfl, rfl⟩
    · split at h
      · exact absurd h (by simp)
      · split at h
        · injection h with h'; subst h'
          right
          refine ⟨rfl, _, by assumption, rfl⟩
        · injection h with h'; subst h'; left; exact ⟨rfl, rfl⟩
    · exact absurd h (by simp)
  · injection h with h'; subst h'; left; exact ⟨rfl, rfl⟩

lemma pipelineStage_fst (fetch : String → Except String JsonVal)
    (acc : String × List String × List JsonVal) :
    (pipelineStage fetch acc).1 = acc.1 ∨ (pipelineStage fetch acc).1 = "warning" := by
  unfold pipelineStage
  split
  · left; rfl
  · split
    · exact pipelineLoop_fst _ _
    all_goals left; rfl

lemma pipelineStage_issues (fetch : String → Except String JsonVal)
    (acc : String × List String × List JsonVal) :
    ∃ extra, (pipelineStage fetch acc).2.1 = acc.2.1 ++ extra ∧
      ∀ s ∈ extra, ∃ pid, s = pipeIssueLine pid := by
  unfold pipelineStage
  split
  · exact ⟨[], by simp, by simp⟩
  · split
    · exact pipelineLoop_issues _ _
    all_goals exact ⟨[], by simp, by simp⟩

/-- C3. Whenever the connectivity probe fails or returns non-success, the
composite health check reports tier `unhealthy` with exactly the one
connectivity issue, and performs no further check: no `make_request` call is
made at all, so the heap and pipeline checks never run. -/
theorem connectivity_failure_short_circuits
    (conn : JsonVal) (fetch : String → Except String JsonVal) (sv ev : JsonVal)
    (hst : jGet conn "status" = some sv)
    (hne : sv ≠ .str "connected")
    (herr : jGet conn "error" = some ev) :
    healthCheck conn fetch =
      (.ok { overall_status := "unhealthy", timestamp := .null, logstash_version := .null,
             issues := ["Connectivity issue: " ++ pyStr ev],
             recommendations := [jGetD conn "suggestion" (.str "Check Logstash connectivity")] },
       []) := by
  have hIs : jIsStr sv "connected" = false := by
    cases sv with
    | str t =>
      simp only [jIsStr, decide_eq_false_iff_not]
      exact fun h => hne (by rw [h])
    | null => rfl
    | bool b => rfl
    | num q => rfl
    | arr xs => rfl
    | obj fs => rfl
  simp only [healthCheck, hst, hIs, Bool.false_eq_true, if_false, herr]

/-- Witness for C3: an `unreachable` probe result short-circuits the health
check into the single-issue unhealthy assessment with no upstream request. -/
theorem connectivity_failure_short_circuits_witness :
    healthCheck (.obj [("status", .str "unreachable"), ("url", .str "http://localhost:9600"),
        ("error", .str "boom"), ("suggestion", .str "Verify Logstash URL and network connectivity")])
      (fun _ => .ok (.obj [("jvm", .obj [("mem", .obj [("heap_used_percent", .num 99)])])])) =
      (.ok { overall_status := "unhealthy", timestamp := .null, logstash_version := .null,
             issues := ["Connectivity issue: boom"],
             recommendations := [.str "Verify Logstash URL and network connectivity"] },
       []) := by
  have h := connectivity_failure_short_circuits
    (.obj [("status", .str "unreachable"), ("url", .str "http://localhost:9600"),
        ("error", .str "boom"), ("suggestion", .str "Verify Logstash URL and network connectivity")])
    (fun _ => .ok (.obj [("jvm", .obj [("mem", .obj [("heap_used_percent", .num 99)])])]))
    (.str "unreachable") (.str "boom") (by rfl) (by simp) (by rfl)
  simpa using h

/-- C2. For every heap-used-percent value extracted from the JVM statistics
snapshot in the composite health check: strictly above 80 the assessment's
tier is at least `warning` and the issues contain the heap-usage entry;
at or below 80 no heap-related issue is added. -/
theorem heap_usage_check
    (conn : JsonVal) (fetch : String → Except String JsonVal)
    (nodeInfo nodeStats : JsonVal) (jf mf : List (String × JsonVal)) (h : ℚ)
    (hconn : jGet conn "status" = some (.str "connected"))
    (h1 : fetch "/_node" = .ok nodeInfo)
    (h2 : fetch "/_node/stats?human=true" = .ok nodeStats)
    (hjvm : jGetD nodeStats "jvm" (.obj []) = .obj jf)
    (hmem : lookupField jf "mem" = some (.obj mf))
    (hh : asPyNum ((lookupField mf "heap_used_percent").getD (.num 0)) = some h) :
    ∃ st reqs, healthCheck conn fetch = (.ok st, reqs) ∧
      (h > 80 → tierRank "warning" ≤ tierRank st.overall_status ∧ heapIssueLine h ∈ st.issues) ∧
      (h ≤ 80 → ∀ q : ℚ, heapIssueLine q ∉ st.issues) := by
  have hIs : jIsStr (.str "connected") "connected" = true := by rfl
  by_cases hgt : h > 80
  · have hph : heapPhase nodeStats = .ok ("warning", [heapIssueLine h],
        [.str "Consider increasing JVM heap size or optimizing memory usage"]) := by
      simp only [heapPhase, hjvm, hmem, hh, if_pos hgt]
    have hmain : healthCheck conn fetch =
        (.ok { overall_status := (pipelineStage fetch ("warning", [heapIssueLine h],
                 [.str "Consider increasing JVM heap size or optimizing memory usage"])).1,
               timestamp := jGetD nodeInfo "timestamp" .null,
               logstash_version := jGetD nodeInfo "version" (.str "unknown"),
               issues := (pipelineStage fetch ("warning", [heapIssueLine h],
                 [.str "Consider increasing JVM heap size or optimizing memory usage"])).2.1,
               recommendations := (pipelineStage fetch ("warning", [heapIssueLine h],
                 [.str "Consider increasing JVM heap size or optimizing memory usage"])).2.2 },
         ["/_node", "/_node/stats?human=true", "/_node/stats/pipelines?human=true"]) := by
      simp only [healthCheck, hconn, hIs, if_true, h1, h2, hph]
    refine ⟨_, _, hmain, ?_, ?_⟩
    · intro _
      constructor
      · rcases pipelineStage_fst fetch ("warning", [heapIssueLine h],
          [.str "Consider increasing JVM heap size or optimizing memory usage"]) with hf | hf <;>
          simp [hf, tierRank]
      · obtain ⟨extra, he, _⟩ := pipelineStage_issues fetch ("warning", [heapIssueLine h],
          [.str "Consider increasing JVM heap size or optimizing memory usage"])
        simp only [he]
        exact List.mem_append_left _ (List.mem_singleton.mpr rfl)
    · intro hle
      exact absurd hgt (not_lt.mpr hle)
  · have hph : heapPhase nodeStats = .ok ("healthy", [], []) := by
      simp only [heapPhase, hjvm, hmem, hh, if_neg hgt]
    have hmain : healthCheck conn fetch =
        (.ok { overall_status := (pipelineStage fetch ("healthy", [], [])).1,
               timestamp := jGetD nodeInfo "timestamp" .null,
               logstash_version := jGetD nodeInfo "version" (.str "unknown"),
               issues := (pipelineStage fetch ("healthy", [], [])).2.1,
               recommendations := (pipelineStage fetch ("healthy", [], [])).2.2 },
         ["/_node", "/_node/stats?human=true", "/_node/stats/pipelines?human=true"]) := by
      simp only [healthCheck, hconn, hIs, if_true, h1, h2, hph]
    refine ⟨_, _, hmain, ?_, ?_⟩
    · intro hc; exact absurd hc hgt
    · intro _ q hq
      obtain ⟨extra, he, hall⟩ := pipelineStage_issues fetch ("healthy", [], [])
      rw [he] at hq
      simp only [List.nil_append] at hq
      obtain ⟨pid, hp⟩ := hall _ hq
      exact heapIssueLine_ne_pipeIssueLine q pid hp

/-- Witness for C2 at heap usage 85% with an empty pipeline snapshot: the
assessment is `warning` and carries the heap issue. -/
theorem heap_usage_check_witness :
    ∃ st reqs, healthCheck (.obj [("status", .str "connected"), ("version", .str "8.8.0")])
      (fun ep => if ep = "/_node/stats?human=true" then
          .ok (.obj [("jvm", .obj [("mem", .obj [("heap_used_percent", .num 85)])])])
        else .ok (.obj [])) = (.ok st, reqs) ∧
      tierRank "warning" ≤ tierRank st.overall_status ∧ heapIssueLine 85 ∈ st.issues := by
  obtain ⟨st, reqs, hmain, hwarn, _⟩ := heap_usage_check
    (.obj [("status", .str "connected"), ("version", .str "8.8.0")])
    (fun ep => if ep = "/_node/stats?human=true" then
        .ok (.obj [("jvm", .obj [("mem", .obj [("heap_used_percent", .num 85)])])])
      else .ok (.obj []))
    (.obj []) (.obj [("jvm", .obj [("mem", .obj [("heap_used_percent", .num 85)])])])
    [("mem", .obj [("heap_used_percent", .num 85)])] [("heap_used_percent", .num 85)] 85
    (by rfl) (by rfl) (by rfl) (by rfl) (by rfl) (by rfl)
  exact ⟨st, reqs, hmain, hwarn (by decide)⟩

lemma keyEq_of_nodup {entries : List (String × JsonVal)} {k : String} {a b : JsonVal}
    (hnd : (entries.map Prod.fst).Nodup) (ha : (k, a) ∈ entries) (hb : (k, b) ∈ entries) :
    a = b := by
  induction entries with
  | nil => simp at ha
  | cons e rest ih =>
    simp only [List.map_cons, List.nodup_cons] at hnd
    rcases List.mem_cons.mp ha with ha0 | ha'
    · rcases List.mem_cons.mp hb with hb0 | hb'
      · rw [← ha0] at hb0
        injection hb0 with _ h2
        exact h2.symm
      · exfalso
        apply hnd.1
        rw [← ha0]
        exact List.mem_map.mpr ⟨(k, b), hb', rfl⟩
    · rcases List.mem_cons.mp hb with hb0 | hb'
      · exfalso
        apply hnd.1
        rw [← hb0]
        exact List.mem_map.mpr ⟨(k, a), ha', rfl⟩
      · exact ih hnd.2 ha' hb'

/-- C4. In a composite health check whose pipeline-statistics snapshot is
well formed (event counts numeric, pipeline ids unique as in any Python
dict), every pipeline with `filtered > 0` and `out == 0` contributes an
issue naming its id and raises the tier to at least `warning`, while a
pipeline whose `out` count is a number greater than 0 never has this issue
reported, regardless of its `filtered` count. -/
theorem pipeline_starvation_check
    (conn : JsonVal) (fetch : String → Except String JsonVal)
    (nodeInfo nodeStats pstats : JsonVal)
    (a1 : String) (i1 : List String) (r1 : List JsonVal)
    (entries sf ef : List (String × JsonVal)) (pid : String) (f : ℚ)
    (hconn : jGet conn "status" = some (.str "connected"))
    (h1 : fetch "/_node" = .ok nodeInfo)
    (h2 : fetch "/_node/stats?human=true" = .ok nodeStats)
    (hheap : heapPhase nodeStats = .ok (a1, i1, r1))
    (h3 : fetch "/_node/stats/pipelines?human=true" = .ok pstats)
    (hpl : jGetD pstats "pipelines" (.obj []) = .obj entries)
    (hsafe : ∀ e ∈ entries, entrySafe e.2 = true)
    (hnodup : (entries.map Prod.fst).Nodup)
    (hmem : (pid, JsonVal.obj sf) ∈ entries)
    (hev : lookupField sf "events" = some (.obj ef))
    (hf : asPyNum ((lookupField ef "filtered").getD (.num 0)) = some f) :
    ∃ st reqs, healthCheck conn fetch = (.ok st, reqs) ∧
      (f > 0 → pyEqZero ((lookupField ef "out").getD (.num 0)) = true →
        pipeIssueLine pid ∈ st.issues ∧ tierRank "warning" ≤ tierRank st.overall_status) ∧
      (∀ q : ℚ, (lookupField ef "out").getD (.num 0) = .num q → q > 0 →
        pipeIssueLine pid ∉ st.issues) := by
  have hIs : jIsStr (.str "connected") "connected" = true := by rfl
  have hstage : pipelineStage fetch (a1, i1, r1) =
      ((if entries.any (fun e => starved e.2) then "warning" else a1),
       i1 ++ (entries.filter (fun e => starved e.2)).map (fun e => pipeIssueLine e.1),
       r1 ++ (entries.filter (fun e => starved e.2)).map
         (fun e => JsonVal.str (pipeRecLine e.1))) := by
    simp only [pipelineStage, h3, hpl]
    exact pipelineLoop_eq_of_safe entries a1 i1 r1 hsafe
  have hmain : healthCheck conn fetch =
      (.ok { overall_status := (pipelineStage fetch (a1, i1, r1)).1,
             timestamp := jGetD nodeInfo "timestamp" .null,
             logstash_version := jGetD nodeInfo "version" (.str "unknown"),
             issues := (pipelineStage fetch (a1, i1, r1)).2.1,
             recommendations := (pipelineStage fetch (a1, i1, r1)).2.2 },
       ["/_node", "/_node/stats?human=true", "/_node/stats/pipelines?human=true"]) := by
    simp only [healthCheck, hconn, hIs, if_true, h1, h2, hheap]
  refine ⟨_, _, hmain, ?_, ?_⟩
  · intro hf0 hout
    have hst : starved (.obj sf) = true := by
      simp [starved, hev, hf, hf0, hout]
    constructor
    · rw [hstage]
      exact List.mem_append_right _
        (List.mem_map.mpr ⟨(pid, .obj sf), List.mem_filter.mpr ⟨hmem, hst⟩, rfl⟩)
    · rw [hstage]
      have hany : entries.any (fun e => starved e.2) = true :=
        List.any_eq_true.mpr ⟨(pid, .obj sf), hmem, hst⟩
      simp [hany, tierRank]
  · intro q hq hq0 hin
    have hst : starved (.obj sf) = false := by
      have : pyEqZero ((lookupField ef "out").getD (.num 0)) = false := by
        rw [hq]
        simp only [pyEqZero, decide_eq_false_iff_not]
        exact ne_of_gt hq0
      simp [starved, hev, hf, this]
    rw [hstage] at hin
    rcases List.mem_append.mp hin with hin1 | hin2
    · rcases heapPhase_shape nodeStats (a1, i1, r1) hheap with ⟨_, hi⟩ | ⟨_, q', _, hi⟩
      · simp only at hi
        rw [hi] at hin1
        simp at hin1
      · simp only at hi
        rw [hi] at hin1
        rcases List.mem_singleton.mp hin1 with h'
        exact heapIssueLine_ne_pipeIssueLine q' pid h'.symm
    · obtain ⟨e, hef, hee⟩ := List.mem_map.mp hin2
      obtain ⟨hemem, hestar⟩ := List.mem_filter.mp hef
      obtain ⟨ek, ev⟩ := e
      have hkeq : ek = pid := pipeIssueLine_inj hee
      subst hkeq
      have : ev = .obj sf := keyEq_of_nodup hnodup hemem hmem
      subst this
      rw [hst] at hestar
      exact absurd hestar (by decide)

/-- Witness for C4: one starved pipeline (`p1`) and one producing pipeline
(`p2`); `p1`'s issue is reported with tier `warning`, `p2`'s is not. -/
theorem pipeline_starvation_check_witness :
    ∃ st reqs, healthCheck (.obj [("status", .str "connected")])
      (fun ep => if ep = "/_node/stats/pipelines?human=true" then
          .ok (.obj [("pipelines", .obj [
            ("p1", .obj [("events", .obj [("filtered", .num 10), ("out", .num 0)])]),
            ("p2", .obj [("events", .obj [("filtered", .num 10), ("out", .num 5)])])])])
        else .ok (.obj [])) = (.ok st, reqs) ∧
      pipeIssueLine "p1" ∈ st.issues ∧ tierRank "warning" ≤ tierRank st.overall_status ∧
      pipeIssueLine "p2" ∉ st.issues := by
  obtain ⟨st, reqs, hmain, hpos, _⟩ := pipeline_starvation_check
    (.obj [("status", .str "connected")])
    (fun ep => if ep = "/_node/stats/pipelines?human=true" then
        .ok (.obj [("pipelines", .obj [
          ("p1", .obj [("events", .obj [("filtered", .num 10), ("out", .num 0)])]),
          ("p2", .obj [("events", .obj [("filtered", .num 10), ("out", .num 5)])])])])
      else .ok (.obj []))
    (.obj []) (.obj [])
    (.obj [("pipelines", .obj [
      ("p1", .obj [("events", .obj [("filtered", .num 10), ("out", .num 0)])]),
      ("p2", .obj [("events", .obj [("filtered", .num 10), ("out", .num 5)])])])])
    "healthy" [] []
    [("p1", .obj [("events", .obj [("filtered", .num 10), ("out", .num 0)])]),
     ("p2", .obj [("events", .obj [("filtered", .num 10), ("out", .num 5)])])]
    [("events", .obj [("filtered", .num 10), ("out", .num 0)])]
    [("filtered", .num 10), ("out", .num 0)] "p1" 10
    (by rfl) (by rfl) (by rfl) (by rfl) (by rfl) (by rfl)
    (by decide)
    (by simp) (by simp) (by rfl) (by rfl)
  obtain ⟨st2, reqs2, hmain2, _, hneg2⟩ := pipeline_starvation_check
    (.obj [("status", .str "connected")])
    (fun ep => if ep = "/_node/stats/pipelines?human=true" then
        .ok (.obj [("pipelines", .obj [
          ("p1", .obj [("events", .obj [("filtered", .num 10), ("out", .num 0)])]),
          ("p2", .obj [("events", .obj [("filtered", .num 10), ("out", .num 5)])])])])
      else .ok (.obj []))
    (.obj []) (.obj [])
    (.obj [("pipelines", .obj [
      ("p1", .obj [("events", .obj [("filtered", .num 10), ("out", .num 0)])]),
      ("p2", .obj [("events", .obj [("filtered", .num 10), ("out", .num 5)])])])])
    "healthy" [] []
    [("p1", .obj [("events", .obj [("filtered", .num 10), ("out", .num 0)])]),
     ("p2", .obj [("events", .obj [("filtered", .num 10), ("out", .num 5)])])]
    [("events", .obj [("filtered", .num 10), ("out", .num 5)])]
    [("filtered", .num 10), ("out", .num 5)] "p2" 10
    (by rfl) (by rfl) (by rfl) (by rfl) (by rfl) (by rfl)
    (by decide)
    (by simp) (by simp) (by rfl) (by rfl)
  rw [hmain] at hmain2
  injection hmain2 with hm1 hm2
  injection hm1 with hm1'
  obtain ⟨hp1, hw⟩ := hpos (by decide) (by decide)
  refine ⟨st, reqs, hmain, hp1, hw, ?_⟩
  rw [hm1']
  exact hneg2 5 (by rfl) (by decide)

/-- C5. Every command issued while the session is Uninitialized, other than
`initialize` (the recognized commands being `initialize`, `tools/list` and
`tools/call`), is rejected with the `Server not initialized` failure
envelope, and no tool action or upstream request is executed. -/
theorem uninitialized_commands_rejected
    (conn : JsonVal) (fetch : String → Except String JsonVal) (req : JsonVal) (m : String)
    (hm : jGetD req "method" .null = .str m)
    (hrec : m = "tools/list" ∨ m = "tools/call") :
    handleRequest conn fetch false req =
      (false, .failure (jGetD req "id" .null) (-32602) "Server not initialized", []) := by
  rcases hrec with h | h <;> subst h <;> simp [handleRequest, hm, jIsStr]

/-- Witness for C5: a `tools/call` request before `initialize` is answered
with the `-32602` not-initialized error envelope and the session stays
Uninitialized. -/
theorem uninitialized_commands_rejected_witness :
    handleRequest (.obj []) (fun _ => .error "unreachable") false
      (.obj [("method", .str "tools/call"), ("id", .num 2),
             ("params", .obj [("name", .str "logstash_node_info")])]) =
      (false, .failure (.num 2) (-32602) "Server not initialized", []) := by
  have h := uninitialized_commands_rejected (.obj []) (fun _ => .error "unreachable")
    (.obj [("method", .str "tools/call"), ("id", .num 2),
           ("params", .obj [("name", .str "logstash_node_info")])])
    "tools/call" (by rfl) (Or.inr rfl)
  simpa using h

/-- C8. A `tools/call` of `logstash_pipeline_stats` whose arguments carry no
`id` field fails with the `Pipeline ID is required` error dictionary, and no
upstream request is made before that failure is returned. -/
theorem pipeline_stats_requires_id
    (conn : JsonVal) (fetch : String → Except String JsonVal) (args : JsonVal)
    (hid : jGet args "id" = none) :
    handleToolCall conn fetch (.str "logstash_pipeline_stats") args =
      (toolErrorDict "Pipeline ID is required" (.str "logstash_pipeline_stats") args, []) := by
  simp [handleToolCall, dispatchTool, jGetD, hid, jTruthy]

/-- Witness for C8: calling `logstash_pipeline_stats` with only a `human`
argument returns the required-id error dictionary without any request. -/
theorem pipeline_stats_requires_id_witness :
    handleToolCall (.obj []) (fun _ => .error "unreachable")
      (.str "logstash_pipeline_stats") (.obj [("human", .bool true)]) =
      (toolErrorDict "Pipeline ID is required" (.str "logstash_pipeline_stats")
        (.obj [("human", .bool true)]), []) :=
  pipeline_stats_requires_id (.obj []) (fun _ => .error "unreachable")
    (.obj [("human", .bool true)]) (by rfl)

/-- Counterexample to C6: a tool execution error (here an unknown tool name,
the same fallthrough that reports every tool failure) does NOT produce an
error envelope with code `-32602` — `handle_tool_call` catches the error and
`handle_request` wraps the resulting error dictionary in a SUCCESS envelope. -/
theorem handler_error_envelope_counterexample :
    handleRequest (.obj []) (fun _ => .error "unreachable") true
      (.obj [("method", .str "tools/call"), ("id", .num 7),
             ("params", .obj [("name", .str "nonexistent_tool")])]) =
      (true, .success (.num 7) (wrapToolResult (toolErrorDict "Unknown tool: nonexistent_tool"
        (.str "nonexistent_tool") (.obj []))), []) := by rfl

/-- C6 (amended). Every error envelope emitted by `handle_request` carries
code `-32602`; the parse-error envelope (code `-32700`) is emitted only for
input that cannot be parsed at all; unknown methods and uninitialized-state
violations are answered with `-32602` error envelopes; but a tool execution
error never reaches an error envelope — an initialized `tools/call` always
returns a success envelope, with tool failures embedded as an error
dictionary in the result text. -/
theorem handler_error_codes
    (conn : JsonVal) (fetch : String → Except String JsonVal) :
    (∀ isInit req b rid code msg reqs,
        handleRequest conn fetch isInit req = (b, .failure rid code msg, reqs) →
        code = -32602) ∧
    (∀ isInit, processParsed conn fetch isInit none =
        (isInit, .failure .null (-32700) "Parse error", [])) ∧
    (∀ req m, jGetD req "method" .null = .str m → m ≠ "initialize" → m ≠ "tools/list" →
        m ≠ "tools/call" →
        handleRequest conn fetch true req =
          (true, .failure (jGetD req "id" .null) (-32602) ("Unknown method: " ++ m), [])) ∧
    (∀ req, jGetD req "method" .null = .str "tools/call" →
        ∃ res reqs, handleRequest conn fetch true req =
          (true, .success (jGetD req "id" .null) (wrapToolResult res), reqs)) := by
  refine ⟨?_, fun _ => rfl, ?_, ?_⟩
  · intro isInit req b rid code msg reqs h
    simp only [handleRequest] at h
    by_cases c1 : jIsStr (jGetD req "method" .null) "initialize" = true
    · rw [if_pos c1] at h
      exact absurd h (by simp)
    · rw [if_neg c1] at h
      by_cases c2 : jIsStr (jGetD req "method" .null) "tools/list" = true
      · rw [if_pos c2] at h
        by_cases ci : isInit = true
        · rw [if_pos ci] at h
          exact absurd h (by simp)
        · rw [if_neg ci] at h
          injection h with hb hrest
          injection hrest with hresp hreqs
          injection hresp with _ hcode _
          exact hcode.symm
      · rw [if_neg c2] at h
        by_cases c3 : jIsStr (jGetD req "method" .null) "tools/call" = true
        · rw [if_pos c3] at h
          by_cases ci : isInit = true
          · rw [if_pos ci] at h
            exact absurd h (by simp)
          · rw [if_neg ci] at h
            injection h with hb hrest
            injection hrest with hresp hreqs
            injection hresp with _ hcode _
            exact hcode.symm
        · rw [if_neg c3] at h
          injection h with hb hrest
          injection hrest with hresp hreqs
          injection hresp with _ hcode _
          exact hcode.symm
  · intro req m hm h1 h2 h3
    simp [handleRequest, hm, jIsStr, h1, h2, h3, pyStr]
  · intro req hm
    refine ⟨(handleToolCall conn fetch (jGetD (jGetD req "params" (.obj [])) "name" .null)
      (jGetD (jGetD req "params" (.obj [])) "arguments" (.obj []))).1,
      (handleToolCall conn fetch (jGetD (jGetD req "params" (.obj [])) "name" .null)
      (jGetD (jGetD req "params" (.obj [])) "arguments" (.obj []))).2, ?_⟩
    simp [handleRequest, hm, jIsStr]

/-- Witness for C6 (amended), applying the theorem at a concrete unknown
method and at the parse-error case. -/
theorem handler_error_codes_witness :
    (processParsed (.obj []) (fun _ => .error "unreachable") true none =
      (true, .failure .null (-32700) "Parse error", [])) ∧
    handleRequest (.obj []) (fun _ => .error "unreachable") true
      (.obj [("method", .str "resources/list"), ("id", .num 3)]) =
      (true, .failure (.num 3) (-32602) "Unknown method: resources/list", []) := by
  have h := handler_error_codes (.obj []) (fun _ => .error "unreachable")
  refine ⟨h.2.1 true, ?_⟩
  have h3 := h.2.2.1 (.obj [("method", .str "resources/list"), ("id", .num 3)])
    "resources/list" (by rfl) (by decide) (by decide) (by decide)
  simpa using h3

/-- Counterexample to C7: the tool `logstash_node_stats` declares its
`human` field as `boolean`, yet invoking it with the string value `"yes"`
is not rejected with an invalid-arguments failure — the upstream request is
issued (using the string's truthiness) and its snapshot is returned. -/
theorem tool_argument_validation_counterexample :
    declaredType "logstash_node_stats" "human" = some "boolean" ∧
    typeMatches "boolean" (.str "yes") = false ∧
    handleToolCall (.obj []) (fun ep => .ok (.obj [("endpoint", .str ep)]))
      (.str "logstash_node_stats") (.obj [("human", .str "yes")]) =
      (.obj [("endpoint", .str "/_node/stats?human=true")], ["/_node/stats?human=true"]) := by
  exact ⟨by rfl, by rfl, by rfl⟩

/-- C7 (amended). `handle_tool_call` performs no validation of provided
arguments against the registry's declared input shape: even when the
provided value mismatches the declared type, the tool action executes,
issuing its upstream request with the raw value's truthiness deciding the
`human` flag. -/
theorem no_argument_type_validation
    (conn : JsonVal) (fetch : String → Except String JsonVal) (v : JsonVal) (ty : String)
    (_hdecl : declaredType "logstash_node_stats" "human" = some ty)
    (_hmis : typeMatches ty v = false) :
    handleToolCall conn fetch (.str "logstash_node_stats") (.obj [("human", v)]) =
      fetchTool fetch ("/_node/stats" ++ (if jTruthy v then "?human=true" else ""))
        (.str "logstash_node_stats") (.obj [("human", v)]) := by
  simp [handleToolCall, dispatchTool, humanSuffix, jGetD, jGet, lookupField]

/-- Witness for C7 (amended) at the concrete mismatched value `"yes"`: the
action executes and returns the snapshot for `/_node/stats?human=true`. -/
theorem no_argument_type_validation_witness :
    handleToolCall (.obj []) (fun ep => .ok (.obj [("endpoint", .str ep)]))
      (.str "logstash_node_stats") (.obj [("human", .str "yes")]) =
      fetchTool (fun ep => .ok (.obj [("endpoint", .str ep)]))
        ("/_node/stats" ++ "?human=true")
        (.str "logstash_node_stats") (.obj [("human", .str "yes")]) := by
  have h := no_argument_type_validation (.obj []) (fun ep => .ok (.obj [("endpoint", .str ep)]))
    (.str "yes") "boolean" (by rfl) (by rfl)
  simpa using h
